import Mathlib

/-!
Verification of the agent-loop and memory subsystem of the
`video-editing-agent` repository (`src/agent.py`, `src/tools.py`).

Python strings are embedded as Lean `String`s; where character arithmetic
matters the operations are defined through the list of characters
(`String.data`).  Python `list`s become Lean `List`s.  The language model
and the tool handlers are external collaborators: they enter the embedding
as oracle functions, one response per invocation, exactly as the code
consumes them.  Definitions come first, theorems afterwards.
-/

namespace VideoAgent

/-- Hardcoded memory controls from `src/agent.py` (lines 35-39). -/
def DEFAULT_RECENT_MESSAGES_LIMIT : Nat := 50

def DEFAULT_CONTEXT_MAX_TOKENS : Nat := 200000

def DEFAULT_SUMMARY_TRIGGER_TOKENS : Nat := 110000

def DEFAULT_SUMMARY_MAX_CHARS : Nat := 7500

def DEFAULT_MEMORY_EXPORT_MAX_MESSAGES : Nat := 300

/-- One element of a message's structured content list.
In the Python code a part is either a `dict` that contains a `"text"` key
(then `_estimate_tokens` counts `len(str(part.get("text", "")))`), or any
other value (a media `dict` carrying `base64` payload, or a non-dict), for
which the code counts `len(str(part))`.  `textPart` carries the `str()` of
the value stored under `"text"`; `otherPart` carries the full Python
`str()` rendering of the part.  Every text part this code builds is a
`dict` of the shape `{"type": "text", "text": ...}`, so having a `"text"`
key and having `"type" == "text"` coincide. -/
inductive ContentPart where
  | textPart (text : String)
  | otherPart (reprStr : String)
  deriving DecidableEq, Repr

/-- The `content` attribute of a LangChain message: a plain string, a list
of parts, or any other value (counted through `str(content)`). -/
inductive MsgContent where
  | str (s : String)
  | parts (ps : List ContentPart)
  | other (reprStr : String)
  deriving DecidableEq, Repr

/-- A tool call requested by a model turn: name, arguments rendering and
call identifier (`call["name"]`, `call["args"]`, `call["id"]`). -/
structure ToolCall where
  name : String
  args : String
  id : String
  deriving DecidableEq, Repr

/-- A LangChain conversation message: system instruction, user turn, model
turn (with its requested tool calls) or tool result (referencing the call
identifier it answers). -/
inductive Message where
  | system (content : MsgContent)
  | human (content : MsgContent)
  | ai (content : MsgContent) (tool_calls : List ToolCall)
  | tool (content : MsgContent) (tool_call_id : String)
  deriving DecidableEq, Repr

def Message.content : Message → MsgContent
  | .system c => c
  | .human c => c
  | .ai c _ => c
  | .tool c _ => c

def Message.isSystem : Message → Bool
  | .system _ => true
  | _ => false

def Message.isHuman : Message → Bool
  | .human _ => true
  | _ => false

/-- The LangChain `type` attribute of a message. -/
def Message.role : Message → String
  | .system _ => "system"
  | .human _ => "human"
  | .ai _ _ => "ai"
  | .tool _ _ => "tool"

/-- Character contribution of one content part in `_estimate_tokens`
(`src/agent.py` lines 289-293). -/
def partChars : ContentPart → Nat
  | .textPart text => text.length
  | .otherPart reprStr => reprStr.length

/-- Character contribution of one message's `content` in `_estimate_tokens`
(`src/agent.py` lines 284-295). -/
def contentChars : MsgContent → Nat
  | .str s => s.length
  | .parts ps => (ps.map partChars).sum
  | .other reprStr => reprStr.length

/-- `_estimate_tokens` (`src/agent.py` lines 282-296): sum of the character
counts of every message's content, floor-divided by 4, minimum 1. -/
def estimate_tokens (messages : List Message) : Nat :=
  max 1 ((messages.map (fun m => contentChars m.content)).sum / 4)

/-- Character count a part contributes under the spec's words ("sum the
character length of all text-bearing parts ... media is not counted"):
only parts carrying text count, every other part contributes nothing. -/
def specPartChars : ContentPart → Nat
  | .textPart text => text.length
  | .otherPart _ => 0

/-- Per-message text-bearing character count under the spec's words. -/
def specContentChars : MsgContent → Nat
  | .str s => s.length
  | .parts ps => (ps.map specPartChars).sum
  | .other _ => 0

/-- The Token Estimator as the spec describes it: floor of the summed
text-bearing character lengths divided by 4, minimum 1, media counted as
nothing.  Stated only to be compared against `estimate_tokens`, which is
translated from the code. -/
def estimate_tokens_spec (messages : List Message) : Nat :=
  max 1 ((messages.map (fun m => specContentChars m.content)).sum / 4)

/-- Characters the code counts beyond the spec's text-bearing characters:
the `str()` rendering of every part without a `"text"` key (media parts
included, hence their base64 payload) and of every non-str non-list
content value. -/
def extraPartChars : ContentPart → Nat
  | .textPart _ => 0
  | .otherPart reprStr => reprStr.length

def extraContentChars : MsgContent → Nat
  | .str _ => 0
  | .parts ps => (ps.map extraPartChars).sum
  | .other reprStr => reprStr.length

/-- Whether a message carries non-empty text content (used by the
monotonicity property of the spec). -/
def Message.hasNonEmptyText (m : Message) : Bool :=
  match m.content with
  | .str s => !s.isEmpty
  | .parts ps => ps.any (fun p => match p with | .textPart t => !t.isEmpty | .otherPart _ => false)
  | .other _ => false

/-- A human message holding one media part as produced by
`_build_asset_blocks` (`src/agent.py` line 209): a `dict` with keys
`type`, `base64` and `mime_type` but no `"text"` key, whose Python
`str()` rendering therefore includes the whole base64 payload. -/
def mediaOnlyMessage : Message :=
  .human (.parts [.otherPart
    "\x7b'type': 'image', 'base64': 'QUJDREVGR0hJSktMTU5PUFFSU1RVVldYWVo=', 'mime_type': 'image/png'\x7d"])

/-! ### Python string helpers

Python `str.strip()` / `str.rstrip()` with no argument remove leading and
trailing whitespace; the ASCII whitespace characters are modelled (the
strings this code strips are model output and literals).  Slicing
`s[:n]` takes the first `n` characters. -/

def isPySpace (c : Char) : Bool :=
  c = ' ' || c = '\t' || c = '\n' || c = '\r' || c = '\x0b' || c = '\x0c'

/-- Python `s.strip()`. -/
def pyStrip (s : String) : String :=
  ⟨((s.data.dropWhile isPySpace).reverse.dropWhile isPySpace).reverse⟩

/-- Python `s.rstrip()`. -/
def pyRStrip (s : String) : String :=
  ⟨(s.data.reverse.dropWhile isPySpace).reverse⟩

/-- Python `s[:n]`. -/
def pySlice (s : String) (n : Nat) : String :=
  ⟨s.data.take n⟩

/-- Python `l[-n:]` for `n > 0`: the most recent `n` elements (all of them
when fewer exist). -/
def pyLastSlice (n : Nat) (l : List α) : List α :=
  l.drop (l.length - n)

/-! ### Model-invocation retry wrapper -/

/-- `_invoke_with_retry` (`src/agent.py` lines 466-477).  The underlying
`model.invoke` is an oracle `f` giving the outcome of each attempt
(`f 0` is the immediate attempt, `f 1`-`f 3` the retries).  The code
iterates `enumerate([0] + [2, 4, 8])`, sleeping before every attempt but
the first and re-raising once `attempt >= len(delays)`.  The result pairs
the final outcome with the list of sleeps performed, in order. -/
def invoke_with_retry {E A : Type} (f : Nat → Except E A) : Except E A × List Nat :=
  match f 0 with
  | .ok v => (.ok v, [])
  | .error _ =>
    match f 1 with
    | .ok v => (.ok v, [2])
    | .error _ =>
      match f 2 with
      | .ok v => (.ok v, [2, 4])
      | .error _ =>
        match f 3 with
        | .ok v => (.ok v, [2, 4, 8])
        | .error e => (.error e, [2, 4, 8])

/-! ### Long-term summarizer -/

/-- `_render_message_for_summary` (`src/agent.py` lines 331-344): flatten a
message to a `role: text` line, joining the text parts of a structured
content list, stripping, and truncating lines over 1200 characters with an
ellipsis marker. -/
def render_message_for_summary (m : Message) : String :=
  let text : String :=
    match m.content with
    | .parts ps =>
        let textParts := ps.filterMap (fun p =>
          match p with | .textPart t => some t | .otherPart _ => none)
        pyStrip (String.intercalate "\n" (textParts.filter (fun t => !t.isEmpty)))
    | .str s => pyStrip s
    | .other reprStr => pyStrip reprStr
  let text := if text.length > 1200 then pySlice text 1200 ++ "..." else text
  m.role ++ ": " ++ text

/-- Response of the auxiliary summarizer model: its `text` attribute and
its `str()` rendering (the code uses `getattr(response, "text", None) or
str(response)`). -/
structure SummaryResponse where
  text : String
  reprStr : String
  deriving DecidableEq, Repr

/-- The summarizer prompt assembled by `_update_summary_if_needed`
(`src/agent.py` lines 352-361): the fixed instructions, the prior summary
(`existing_summary or '(none)'`) and the rendering of the most recent 80
messages joined by blank lines. -/
def summarizer_prompt (messages : List Message) (existing_summary : String) : String :=
  let transcript :=
    String.intercalate "\n\n" ((pyLastSlice 80 messages).map render_message_for_summary)
  "You maintain compact memory for a video editing coding agent.\n" ++
  "Merge the prior summary with the latest transcript into one concise, factual summary.\n" ++
  "Keep key user preferences, project decisions, completed work, pending tasks, and unresolved issues.\n" ++
  "Use plain bullet points and keep it under 1000 words.\n\n" ++
  "Prior summary:\n" ++
  (if existing_summary.isEmpty then "(none)" else existing_summary) ++ "\n\n" ++
  "Latest transcript:\n" ++ transcript

/-- Post-processing of the summarizer's answer (`src/agent.py` lines
377-379): strip, and when longer than the 7500-character ceiling cut to
7500 characters, right-strip and append the `"..."` marker. -/
def clamp_summary (content : String) : String :=
  let summary := pyStrip content
  if summary.length > DEFAULT_SUMMARY_MAX_CHARS then
    pyRStrip (pySlice summary DEFAULT_SUMMARY_MAX_CHARS) ++ "..."
  else summary

/-- `_update_summary_if_needed` (`src/agent.py` lines 347-385), with the
auxiliary model given as the per-attempt oracle consumed by
`_invoke_with_retry` (first argument: the prompt it is invoked on).
Returns the summary the function returns together with the number of
auxiliary model invocations it issued (the persisting `_save_summary`
call writes exactly the returned summary and is otherwise outside this
function's return value).  Below the trigger budget the existing summary
is returned with no model call; on model failure (after the retry
schedule) the existing summary is returned; otherwise the response text
(`getattr(response, "text", None) or str(response)`) is clamped by
`clamp_summary`. -/
def update_summary_if_needed (messages : List Message) (existing_summary : String)
    (summarizerAttempts : String → Nat → Except String SummaryResponse) :
    String × Nat :=
  if estimate_tokens messages < DEFAULT_SUMMARY_TRIGGER_TOKENS then
    (existing_summary, 0)
  else
    match (invoke_with_retry (summarizerAttempts (summarizer_prompt messages existing_summary))).1 with
    | .error _ => (existing_summary, 1)
    | .ok response =>
      (clamp_summary (if response.text.isEmpty then response.reprStr else response.text), 1)

/-- A history of one user message of 440000 characters: estimated cost
`440000 / 4 = 110000`, exactly at the trigger budget. -/
def hugeHistory : List Message :=
  [Message.human (.str ⟨List.replicate 440000 'a'⟩)]

/-- A summarizer oracle whose model answers, on every attempt, with a
7600-character summary (no surrounding whitespace). -/
def overlongAttempts : String → Nat → Except String SummaryResponse :=
  fun _ _ => .ok ⟨⟨List.replicate 7600 'a'⟩, ""⟩

/-! ### Agent loop state machine -/

/-- `AgentState` (`src/agent.py` lines 49-52): accumulated messages,
current step counter and the step ceiling. -/
structure AgentState where
  messages : List Message
  step : Nat
  max_steps : Nat
  deriving DecidableEq, Repr

/-- A model turn as `_call_model` consumes it: the response content and
the `tool_calls` attribute (`getattr(response, "tool_calls", None) or []`). -/
structure ModelTurn where
  content : MsgContent
  tool_calls : List ToolCall
  deriving DecidableEq, Repr

/-- Result of one graph run: the outcome (final state on normal
termination at the `END` edge, or the transport failure `_invoke_with_retry`
re-raised), the number of model invocations performed (each one
`_call_model` execution, i.e. one `_invoke_with_retry` round), and the
number of tool calls dispatched by the tools node. -/
structure RunOutcome (E : Type) where
  result : Except E AgentState
  modelCalls : Nat
  toolDispatches : Nat
  deriving Repr

/-- The compiled `_build_graph` state machine (`src/agent.py` lines
480-525) run to quiescence.

* Entry point is the `agent` node (`graph.set_entry_point("agent")`), so an
  iteration begins with `_call_model`: one `_invoke_with_retry` round over
  the per-attempt model oracle `modelAttempts s.step attempt` (the turn's
  context is `_build_message_context` of the state, which determines the
  oracle's first index; attempts are the retry indices 0-3).  A transport
  failure surviving the retry schedule propagates as the run's failure.
* On success the response is appended and `step` becomes `step + 1`
  (`return {"messages": [response], "step": state["step"] + 1}`).
* The conditional edge `_has_tool_calls` then sees the updated state:
  `step >= max_steps` routes to `END`; otherwise a response with tool
  calls routes to the `tools` node, which appends one tool-result message
  per call, in order, each referencing its call identifier, and loops back
  to `agent`; a response without tool calls routes to `END`. -/
def runLoop {E : Type} (modelAttempts : Nat → Nat → Except E ModelTurn)
    (toolResult : ToolCall → String) (s : AgentState) : RunOutcome E :=
  match (invoke_with_retry (modelAttempts s.step)).1 with
  | .error e => ⟨.error e, 1, 0⟩
  | .ok response =>
    let msgs := s.messages ++ [Message.ai response.content response.tool_calls]
    if hstop : s.max_steps ≤ s.step + 1 then
      ⟨.ok ⟨msgs, s.step + 1, s.max_steps⟩, 1, 0⟩
    else if response.tool_calls.isEmpty then
      ⟨.ok ⟨msgs, s.step + 1, s.max_steps⟩, 1, 0⟩
    else
      let results := response.tool_calls.map (fun c => Message.tool (.str (toolResult c)) c.id)
      let r := runLoop modelAttempts toolResult ⟨msgs ++ results, s.step + 1, s.max_steps⟩
      ⟨r.result, r.modelCalls + 1, r.toolDispatches + response.tool_calls.length⟩
termination_by s.max_steps - s.step
decreasing_by omega

/-- A model oracle that always answers with a plain text turn and no tool
calls, on every attempt of every step. -/
def plainAnswerAttempts : Nat → Nat → Except String ModelTurn :=
  fun _ _ => .ok ⟨.str "hello there", []⟩

/-- A model oracle whose every attempt fails with the same transport
error. -/
def failingAttempts : Nat → Nat → Except String ModelTurn :=
  fun _ _ => .error "503 transport failure"

/-- A tool-result oracle returning the empty output for every call. -/
def emptyToolResult : ToolCall → String :=
  fun _ => ""

/-! ### Short-term window manager -/

/-- The longest suffix of `messages` whose estimated cost fits the token
budget (the token counter `_estimate_tokens` is monotone in the message
list, so LangChain's maximal-fitting-suffix search over the reversed list
computes exactly this). -/
def maxSuffixWithinBudget (budget : Nat) : List Message → List Message
  | [] => []
  | m :: rest =>
      if estimate_tokens (m :: rest) ≤ budget then m :: rest
      else maxSuffixWithinBudget budget rest

/-- Modelled from the LangChain collaborator `trim_messages(...,
strategy="last", start_on="human", allow_partial=False)` as
`_build_message_context` invokes it (`src/agent.py` lines 306-313): keep
the longest suffix fitting the budget, then drop messages from its front
until the first remaining message is a human turn; the result is empty
when no human turn remains, and no exception is raised in that case. -/
def trim_messages_last (budget : Nat) (messages : List Message) : List Message :=
  (maxSuffixWithinBudget budget messages).dropWhile (fun m => !m.isHuman)

/-- The candidate window `messages[-DEFAULT_RECENT_MESSAGES_LIMIT:]`
(`src/agent.py` line 304). -/
def candidate_window (messages : List Message) : List Message :=
  pyLastSlice DEFAULT_RECENT_MESSAGES_LIMIT messages

/-- The summary system-message text (`src/agent.py` lines 320-325). -/
def summary_block (summary : String) : String :=
  "Conversation summary so far. Use this as memory and avoid repeating already completed work:\n"
    ++ summary

/-- `_build_message_context` (`src/agent.py` lines 299-328): system prompt,
optional summary system message, then the trimmed recent window.  The
`except` fallback to the untrimmed candidate guards against estimator or
trimmer exceptions; the modelled estimator and trimmer are total, so here
the `try` branch always succeeds. -/
def build_message_context (messages : List Message) (summary : String)
    (system_prompt : String) : List Message :=
  let recent := candidate_window messages
  let trimmed := trim_messages_last DEFAULT_CONTEXT_MAX_TOKENS recent
  [Message.system (.str system_prompt)] ++
    (if !summary.isEmpty then [Message.system (.str (summary_block summary))] else []) ++
    trimmed

/-- A candidate window holding only a model turn and no user turn. -/
def aiOnlyHistory : List Message :=
  [Message.ai (.str "working on it") []]

/-! ### Filesystem model and project-scoped paths -/

/-- An absolute filesystem path: its components below the filesystem root
(POSIX rendering `/a/b/c`). -/
abbrev FsPath := List String

/-- The resolved `PROJECTS_ROOT` of `src/tools.py` (the `projects`
directory next to the sources).  Its concrete mount point is irrelevant to
every property below; a fixed abstract location is used. -/
def PROJECTS_ROOT : FsPath := ["srv", "video-agent", "src", "projects"]

/-- A parsed path as `pathlib` keeps it: whether it is absolute, and its
components (empty and `.` components are dropped at parse time, `..` is
kept). -/
structure PyPath where
  absolute : Bool
  comps : List String
  deriving DecidableEq, Repr

/-- Split a character list at every `/` (the segments of a POSIX path
string). -/
def splitOnSlash : List Char → List (List Char)
  | [] => [[]]
  | c :: rest =>
      match splitOnSlash rest with
      | [] => [[c]]
      | seg :: segs => if c = '/' then [] :: seg :: segs else (c :: seg) :: segs

/-- `s.startswith(pre)` over explicit characters. -/
def charsStartWith : List Char → List Char → Bool
  | _, [] => true
  | [], _ :: _ => false
  | c :: cs, d :: ds => c = d && charsStartWith cs ds

/-- Python `s.startswith(pre)`. -/
def strStartsWith (s pre : String) : Bool :=
  charsStartWith s.data pre.data

/-- Python `s.lower()` (ASCII case folding, the only case the compared
path strings use). -/
def pyLower (s : String) : String :=
  ⟨s.data.map Char.toLower⟩

/-- `pathlib.Path(s)` on a POSIX path string. -/
def parsePyPath (s : String) : PyPath :=
  ⟨strStartsWith s "/",
    ((splitOnSlash s.data).map (fun cs => (⟨cs⟩ : String))).filter
      (fun c => decide (c ≠ "" ∧ c ≠ "."))⟩

/-- `Path.resolve()` over components already below the root: `..` removes
the last accumulated component (staying at the root when there is none);
symbolic links are not modelled. -/
def resolveComps (acc : List String) : List String → List String
  | [] => acc
  | c :: rest =>
      if c = ".." then resolveComps acc.dropLast rest
      else resolveComps (acc ++ [c]) rest

/-- `str(path)` for an absolute path (POSIX form). -/
def renderPath (p : FsPath) : String :=
  p.foldl (fun acc c => acc ++ "/" ++ c) ""

/-- `_safe_project_path` (`src/tools.py` lines 31-62).  The project root is
`(PROJECTS_ROOT / project_id).resolve()` (or `PROJECTS_ROOT` itself when no
project context is set).  An absolute input must be lexically relative to
the root (`Path.relative_to`, a components-prefix check) or a `ValueError`
is raised; a relative input is joined onto the root and resolved.  The
final guard compares `str(target).lower().startswith(str(root).lower())` —
a case-insensitive string-prefix test without a trailing separator. -/
def safe_project_path (project_id : String) (path : String) : Except String FsPath :=
  let root : FsPath :=
    if project_id = "" then PROJECTS_ROOT
    else resolveComps [] (PROJECTS_ROOT ++ [project_id])
  let path_path := parsePyPath path
  let targetE : Except String FsPath :=
    if path_path.absolute then
      if path_path.comps.take root.length = root then
        .ok (resolveComps [] (root ++ path_path.comps.drop root.length))
      else
        .error ("Path must be inside project directory '" ++ project_id ++ "'")
    else
      .ok (resolveComps [] (root ++ path_path.comps))
  match targetE with
  | .error e => .error e
  | .ok target =>
      if strStartsWith (pyLower (renderPath target)) (pyLower (renderPath root)) then
        .ok target
      else
        .error ("Path escapes project directory '" ++ project_id ++ "'")

/-- A filesystem state: the directories that exist and the files with
their contents (later entries shadowed by earlier ones; `setFile`
prepends, so a write replaces the visible content in full). -/
structure FS where
  dirs : List FsPath
  files : List (FsPath × String)
  deriving DecidableEq, Repr

def lookupFile : List (FsPath × String) → FsPath → Option String
  | [], _ => none
  | e :: rest, p => if e.1 = p then some e.2 else lookupFile rest p

/-- Content of the file at `p`, when one exists. -/
def FS.lookup (fs : FS) (p : FsPath) : Option String :=
  lookupFile fs.files p

/-- `path.write_text(content)`: overwrite the file at `p` in full. -/
def FS.setFile (fs : FS) (p : FsPath) (content : String) : FS :=
  ⟨fs.dirs, (p, content) :: fs.files⟩

/-- `path.mkdir(parents=True, exist_ok=True)`: afterwards the directory
exists; creating an existing directory is a no-op for its contents. -/
def FS.mkdirParents (fs : FS) (d : FsPath) : FS :=
  ⟨d :: fs.dirs, fs.files⟩

/-- `path.exists()`: a file or a directory is present at `p`. -/
def FS.pathExists (fs : FS) (p : FsPath) : Bool :=
  (fs.lookup p).isSome || fs.dirs.contains p

/-- `_memory_path` (`src/agent.py` lines 246-247):
`PROJECTS_ROOT / project / ".memory.jsonl"` (project names carry no `..`
components, so `resolve()` is the identity here). -/
def memory_path (project : String) : FsPath :=
  PROJECTS_ROOT ++ [project, ".memory.jsonl"]

/-- `_save_memory` (`src/agent.py` lines 270-279): create the project
directory if needed, drop system messages, keep the most recent 300
entries, serialize one record per line (`enc` stands for `json.dumps` of
the `messages_to_dict` record of one message) and overwrite the transcript
file in full. -/
def save_memory (enc : Message → String) (fs : FS) (project : String)
    (messages : List Message) : FS :=
  let path := memory_path project
  let fs1 := fs.mkdirParents path.dropLast
  let filtered := messages.filter (fun m => !m.isSystem)
  let filtered :=
    if filtered.length > DEFAULT_MEMORY_EXPORT_MAX_MESSAGES then
      pyLastSlice DEFAULT_MEMORY_EXPORT_MAX_MESSAGES filtered
    else filtered
  fs1.setFile path (String.join (filtered.map (fun m => enc m ++ "\n")))

/-- `write_file` (`src/tools.py` lines 247-257): resolve the path inside
the project (returning the `ValueError` text on failure), refuse to
replace an existing path unless `overwrite` is set, otherwise create the
parent directory and write the content, reporting the character count. -/
def write_file (fs : FS) (project_id : String) (path : String) (content : String)
    (overwrite : Bool) : FS × String :=
  match safe_project_path project_id path with
  | .error e => (fs, e)
  | .ok p =>
      if fs.pathExists p && !overwrite then
        (fs, "File already exists: " ++ path)
      else
        ((fs.mkdirParents p.dropLast).setFile p content,
          "Wrote " ++ path ++ " (" ++ toString content.length ++ " bytes)")

/-- A filesystem with one existing file inside project `p1`. -/
def fsWithNotes : FS :=
  ⟨[], [(PROJECTS_ROOT ++ ["p1", "notes.txt"], "old content")]⟩

/-- Equality of `Except` values is decidable when both component types
have decidable equality (used to evaluate the path handlers at concrete
inputs). -/
instance {E A : Type} [DecidableEq E] [DecidableEq A] : DecidableEq (Except E A) :=
  fun x y =>
    match x, y with
    | .ok a, .ok b =>
        if h : a = b then isTrue (by rw [h]) else isFalse (fun hc => h (Except.ok.inj hc))
    | .error a, .error b =>
        if h : a = b then isTrue (by rw [h]) else isFalse (fun hc => h (Except.error.inj hc))
    | .ok _, .error _ => isFalse (fun hc => Except.noConfusion hc)
    | .error _, .ok _ => isFalse (fun hc => Except.noConfusion hc)

end VideoAgent

namespace VideoAgent

/-! ## Theorems -/

lemma string_length_mk (l : List Char) : (String.mk l).length = l.length := rfl

lemma string_length_append (s t : String) : (s ++ t).length = s.length + t.length := by
  cases s; cases t
  simp [string_length_mk, String.append]

lemma pySlice_length_le (s : String) (n : Nat) : (pySlice s n).length ≤ n := by
  simp [pySlice, string_length_mk]

lemma length_dropWhile_le' (p : α → Bool) (l : List α) :
    (l.dropWhile p).length ≤ l.length := by
  induction l with
  | nil => simp
  | cons a l ih =>
      rw [List.dropWhile_cons]
      split
      · exact Nat.le_trans ih (Nat.le_succ _)
      · simp

lemma pyRStrip_length_le (s : String) : (pyRStrip s).length ≤ s.length := by
  cases s with
  | mk l =>
      simpa [pyRStrip, string_length_mk, String.length] using
        length_dropWhile_le' isPySpace l.reverse

lemma dropWhile_replicate_of_false {p : α → Bool} {a : α} (h : p a = false) (n : Nat) :
    List.dropWhile p (List.replicate n a) = List.replicate n a := by
  cases n with
  | zero => simp
  | succ n => rw [List.replicate_succ, List.dropWhile_cons, h]; simp

lemma isPySpace_a : isPySpace 'a' = false := rfl

lemma pyStrip_replicate_a (n : Nat) :
    pyStrip ⟨List.replicate n 'a'⟩ = ⟨List.replicate n 'a'⟩ := by
  simp [pyStrip, dropWhile_replicate_of_false isPySpace_a, List.reverse_replicate]

lemma pyRStrip_replicate_a (n : Nat) :
    pyRStrip ⟨List.replicate n 'a'⟩ = ⟨List.replicate n 'a'⟩ := by
  simp [pyRStrip, dropWhile_replicate_of_false isPySpace_a, List.reverse_replicate]

lemma invoke_with_retry_ok0 {E A : Type} (f : Nat → Except E A) (v : A)
    (h : f 0 = .ok v) : invoke_with_retry f = (.ok v, []) := by
  unfold invoke_with_retry
  rw [h]

lemma invoke_with_retry_allfail {E A : Type} (f : Nat → Except E A) (e : Nat → E)
    (h : ∀ i, i < 4 → f i = .error (e i)) :
    invoke_with_retry f = (.error (e 3), [2, 4, 8]) := by
  unfold invoke_with_retry
  rw [h 0 (by omega), h 1 (by omega), h 2 (by omega), h 3 (by omega)]

lemma partChars_split (p : ContentPart) :
    partChars p = specPartChars p + extraPartChars p := by
  cases p <;> simp [partChars, specPartChars, extraPartChars]

lemma contentChars_split (c : MsgContent) :
    contentChars c = specContentChars c + extraContentChars c := by
  cases c with
  | str s => simp [contentChars, specContentChars, extraContentChars]
  | parts ps =>
      simp only [contentChars, specContentChars, extraContentChars]
      induction ps with
      | nil => simp
      | cons p rest ih => simp [ih, partChars_split p]; omega
  | other r => simp [contentChars, specContentChars, extraContentChars]

lemma totalChars_split (messages : List Message) :
    (messages.map (fun m => contentChars m.content)).sum =
      (messages.map (fun m => specContentChars m.content)).sum +
      (messages.map (fun m => extraContentChars m.content)).sum := by
  induction messages with
  | nil => simp
  | cons m rest ih => simp [ih, contentChars_split m.content]; omega

/-- C7, counterexample: on a message holding a single media part (no text
at all), `_estimate_tokens` does not return the value the claim describes:
the claim's formula counts media parts as nothing and yields the minimum 1,
while the code counts `len(str(part))` — the full `dict` rendering, base64
payload included — and yields 23. -/
theorem c7_counterexample :
    estimate_tokens [mediaOnlyMessage] ≠ estimate_tokens_spec [mediaOnlyMessage] ∧
    estimate_tokens [mediaOnlyMessage] = 23 ∧
    estimate_tokens_spec [mediaOnlyMessage] = 1 := by
  refine ⟨?_, ?_, ?_⟩ <;> decide

/-- C7, amended: `_estimate_tokens` returns `max 1 (total / 4)` where
`total` is the spec's summed text-bearing character count *plus* the
character count of the `str()` rendering of every part without a `"text"`
key (media parts contribute their full rendering, base64 payload included)
and of every non-str, non-list content value. -/
theorem c7_estimate_tokens_amended (messages : List Message) :
    estimate_tokens messages =
      max 1 (((messages.map (fun m => specContentChars m.content)).sum +
              (messages.map (fun m => extraContentChars m.content)).sum) / 4) := by
  rw [estimate_tokens, totalChars_split]

/-- C8: `_estimate_tokens` is deterministic (it is a pure function of the
message list) and monotonic non-decreasing under appending a message with
non-empty text content. -/
theorem c8_estimate_tokens_monotone (messages : List Message) (m : Message)
    (h : m.hasNonEmptyText = true) :
    estimate_tokens messages ≤ estimate_tokens (messages ++ [m]) := by
  have hsum : (messages.map (fun m => contentChars m.content)).sum ≤
      ((messages ++ [m]).map (fun m => contentChars m.content)).sum := by
    simp
  exact max_le_max (le_refl 1) (Nat.div_le_div_right hsum)

/-- C8 witness: appending a concrete non-empty text message to a concrete
history does not decrease the estimate. -/
theorem c8_witness :
    (Message.human (.str "please trim the intro")).hasNonEmptyText = true ∧
    estimate_tokens [Message.human (.str "hello")] ≤
      estimate_tokens ([Message.human (.str "hello")] ++ [Message.human (.str "please trim the intro")]) :=
  ⟨by decide, c8_estimate_tokens_monotone [Message.human (.str "hello")]
    (Message.human (.str "please trim the intro")) (by decide)⟩

/-- C4: when the estimated token cost of the history is strictly below the
trigger budget (110000), `_update_summary_if_needed` returns the existing
summary unchanged and issues zero auxiliary model calls, whatever the
summarizer oracle would have answered. -/
theorem c4_below_trigger_unchanged (messages : List Message) (existing_summary : String)
    (att : String → Nat → Except String SummaryResponse)
    (h : estimate_tokens messages < DEFAULT_SUMMARY_TRIGGER_TOKENS) :
    update_summary_if_needed messages existing_summary att = (existing_summary, 0) := by
  simp only [update_summary_if_needed]
  rw [if_pos h]

/-- C4 witness: a one-message history far below the budget keeps its
summary, with zero model calls, even against an always-failing oracle. -/
theorem c4_witness :
    estimate_tokens [Message.human (.str "hi")] < DEFAULT_SUMMARY_TRIGGER_TOKENS ∧
    update_summary_if_needed [Message.human (.str "hi")] "old summary"
      (fun _ _ => .error "transport down") = ("old summary", 0) :=
  ⟨by decide, c4_below_trigger_unchanged [Message.human (.str "hi")] "old summary"
    (fun _ _ => .error "transport down") (by decide)⟩

lemma update_summary_above (messages : List Message) (existing_summary : String)
    (att : String → Nat → Except String SummaryResponse) (r : SummaryResponse)
    (h : ¬ estimate_tokens messages < DEFAULT_SUMMARY_TRIGGER_TOKENS)
    (hok : (invoke_with_retry (att (summarizer_prompt messages existing_summary))).1 = .ok r) :
    update_summary_if_needed messages existing_summary att =
      (clamp_summary (if r.text.isEmpty then r.reprStr else r.text), 1) := by
  simp only [update_summary_if_needed]
  rw [if_neg h, hok]

lemma clamp_summary_length (content : String) :
    (clamp_summary content).length ≤ DEFAULT_SUMMARY_MAX_CHARS + 3 ∧
    ((clamp_summary content).length ≤ DEFAULT_SUMMARY_MAX_CHARS ∨
      ∃ u, clamp_summary content = u ++ "...") := by
  unfold clamp_summary
  by_cases hlen : (pyStrip content).length > DEFAULT_SUMMARY_MAX_CHARS
  · rw [if_pos hlen]
    have hcut : (pyRStrip (pySlice (pyStrip content) DEFAULT_SUMMARY_MAX_CHARS)).length ≤
        DEFAULT_SUMMARY_MAX_CHARS :=
      Nat.le_trans (pyRStrip_length_le _) (pySlice_length_le _ _)
    have hdots : ("..." : String).length = 3 := rfl
    refine ⟨?_, Or.inr ⟨_, rfl⟩⟩
    rw [string_length_append]
    omega
  · rw [if_neg hlen]
    exact ⟨by omega, Or.inl (by omega)⟩

/-- C3, amended: at or above the trigger budget, with the summarizer call
succeeding (response `r` after `_invoke_with_retry`), the refreshed
summary is at most `7503` characters long — the code first cuts to the
7500-character ceiling, right-strips, and then appends the 3-character
`"..."` marker — and any returned summary longer than 7500 characters
carries that appended marker. -/
theorem c3_summary_ceiling_amended (messages : List Message) (existing_summary : String)
    (att : String → Nat → Except String SummaryResponse) (r : SummaryResponse)
    (h : DEFAULT_SUMMARY_TRIGGER_TOKENS ≤ estimate_tokens messages)
    (hok : (invoke_with_retry (att (summarizer_prompt messages existing_summary))).1 = .ok r) :
    (update_summary_if_needed messages existing_summary att).1.length ≤
        DEFAULT_SUMMARY_MAX_CHARS + 3 ∧
    ((update_summary_if_needed messages existing_summary att).1.length ≤
        DEFAULT_SUMMARY_MAX_CHARS ∨
      ∃ u, (update_summary_if_needed messages existing_summary att).1 = u ++ "...") := by
  rw [update_summary_above messages existing_summary att r (by omega) hok]
  exact clamp_summary_length _

lemma estimate_hugeHistory : estimate_tokens hugeHistory = 110000 := by
  have h : ((⟨List.replicate 440000 'a'⟩ : String)).length = 440000 := by
    rw [string_length_mk, List.length_replicate]
  rw [estimate_tokens, hugeHistory]
  rw [List.map_cons, List.map_nil, List.sum_cons, List.sum_nil]
  rw [show (Message.human (.str (⟨List.replicate 440000 'a'⟩ : String))).content =
    .str (⟨List.replicate 440000 'a'⟩ : String) from rfl]
  rw [show contentChars (.str (⟨List.replicate 440000 'a'⟩ : String)) =
    ((⟨List.replicate 440000 'a'⟩ : String)).length from rfl]
  rw [h]
  norm_num

lemma replicate_a_ne_empty (n : Nat) (hn : 0 < n) :
    ((⟨List.replicate n 'a'⟩ : String)).isEmpty = false := by
  rw [← Bool.not_eq_true]
  intro h1
  have h2 := (String.isEmpty_iff _).mp h1
  have h3 : (List.replicate n 'a').length = ("".data).length :=
    congrArg (fun s : String => s.data.length) h2
  rw [List.length_replicate] at h3
  have h4 : ("".data).length = 0 := rfl
  omega

lemma overlong_invoke :
    (invoke_with_retry (overlongAttempts (summarizer_prompt hugeHistory ""))).1 =
      .ok (⟨⟨List.replicate 7600 'a'⟩, ""⟩ : SummaryResponse) := by
  rw [invoke_with_retry_ok0 (overlongAttempts (summarizer_prompt hugeHistory ""))
    (⟨⟨List.replicate 7600 'a'⟩, ""⟩ : SummaryResponse) rfl]

lemma overlong_result :
    (update_summary_if_needed hugeHistory "" overlongAttempts).1 =
      (⟨List.replicate 7500 'a'⟩ : String) ++ "..." := by
  rw [update_summary_above hugeHistory "" overlongAttempts _
    (by rw [estimate_hugeHistory]; decide) overlong_invoke]
  have htext : ((⟨⟨List.replicate 7600 'a'⟩, ""⟩ : SummaryResponse)).text =
      (⟨List.replicate 7600 'a'⟩ : String) := rfl
  simp only [htext, replicate_a_ne_empty 7600 (by omega), Bool.false_eq_true, if_false]
  unfold clamp_summary
  rw [pyStrip_replicate_a]
  have hlen7600 : ((⟨List.replicate 7600 'a'⟩ : String)).length = 7600 := by
    rw [string_length_mk, List.length_replicate]
  rw [if_pos (by rw [hlen7600]; decide)]
  have hslice : pySlice (⟨List.replicate 7600 'a'⟩ : String) DEFAULT_SUMMARY_MAX_CHARS =
      (⟨List.replicate 7500 'a'⟩ : String) := by
    unfold pySlice
    rw [show ((⟨List.replicate 7600 'a'⟩ : String)).data = List.replicate 7600 'a' from rfl]
    rw [List.take_replicate]
    rw [show min DEFAULT_SUMMARY_MAX_CHARS 7600 = 7500 from by
      unfold DEFAULT_SUMMARY_MAX_CHARS; exact min_eq_left (by norm_num)]
  rw [hslice, pyRStrip_replicate_a]

/-- C3 witness: the amended ceiling holds on a concrete at-budget history
against a concrete succeeding summarizer oracle. -/
theorem c3_witness :
    DEFAULT_SUMMARY_TRIGGER_TOKENS ≤ estimate_tokens hugeHistory ∧
    (update_summary_if_needed hugeHistory "" overlongAttempts).1.length ≤
      DEFAULT_SUMMARY_MAX_CHARS + 3 := by
  refine ⟨by rw [estimate_hugeHistory]; decide, ?_⟩
  exact (c3_summary_ceiling_amended hugeHistory "" overlongAttempts
    ⟨⟨List.replicate 7600 'a'⟩, ""⟩ (by rw [estimate_hugeHistory]; decide)
    overlong_invoke).1

/-- C3, counterexample: on a history estimated exactly at the trigger
budget, with the summarizer answering a 7600-character summary, the
returned summary has length 7503 — the code truncates to 7500 characters
and then appends the 3-character marker on top — so the claimed
7500-character ceiling is exceeded. -/
theorem c3_counterexample :
    DEFAULT_SUMMARY_TRIGGER_TOKENS ≤ estimate_tokens hugeHistory ∧
    (update_summary_if_needed hugeHistory "" overlongAttempts).1.length = 7503 ∧
    DEFAULT_SUMMARY_MAX_CHARS <
      (update_summary_if_needed hugeHistory "" overlongAttempts).1.length := by
  have hlen : (update_summary_if_needed hugeHistory "" overlongAttempts).1.length = 7503 := by
    rw [overlong_result, string_length_append, string_length_mk, List.length_replicate,
      show ("..." : String).length = 3 from rfl]
  exact ⟨by rw [estimate_hugeHistory]; decide, hlen, by rw [hlen]; decide⟩

/-! ### Agent-loop lemmas -/

lemma runLoop_error_case {E : Type} (mA : Nat → Nat → Except E ModelTurn)
    (tO : ToolCall → String) (s : AgentState) (e : E)
    (hE : (invoke_with_retry (mA s.step)).1 = .error e) :
    runLoop mA tO s = ⟨.error e, 1, 0⟩ := by
  unfold runLoop
  rw [hE]

lemma runLoop_ok_stop {E : Type} (mA : Nat → Nat → Except E ModelTurn)
    (tO : ToolCall → String) (s : AgentState) (response : ModelTurn)
    (hok : (invoke_with_retry (mA s.step)).1 = .ok response)
    (hstop : s.max_steps ≤ s.step + 1) :
    runLoop mA tO s =
      ⟨.ok ⟨s.messages ++ [Message.ai response.content response.tool_calls],
        s.step + 1, s.max_steps⟩, 1, 0⟩ := by
  unfold runLoop
  rw [hok]
  dsimp only
  rw [dif_pos hstop]

lemma runLoop_ok_notools {E : Type} (mA : Nat → Nat → Except E ModelTurn)
    (tO : ToolCall → String) (s : AgentState) (response : ModelTurn)
    (hok : (invoke_with_retry (mA s.step)).1 = .ok response)
    (hgo : ¬ s.max_steps ≤ s.step + 1)
    (hempty : response.tool_calls.isEmpty = true) :
    runLoop mA tO s =
      ⟨.ok ⟨s.messages ++ [Message.ai response.content response.tool_calls],
        s.step + 1, s.max_steps⟩, 1, 0⟩ := by
  unfold runLoop
  rw [hok]
  dsimp only
  rw [dif_neg hgo, if_pos hempty]

lemma runLoop_ok_tools {E : Type} (mA : Nat → Nat → Except E ModelTurn)
    (tO : ToolCall → String) (s : AgentState) (response : ModelTurn)
    (hok : (invoke_with_retry (mA s.step)).1 = .ok response)
    (hgo : ¬ s.max_steps ≤ s.step + 1)
    (hne : response.tool_calls.isEmpty = false) :
    runLoop mA tO s =
      ⟨(runLoop mA tO ⟨s.messages ++ [Message.ai response.content response.tool_calls] ++
          response.tool_calls.map (fun c => Message.tool (.str (tO c)) c.id),
          s.step + 1, s.max_steps⟩).result,
        (runLoop mA tO ⟨s.messages ++ [Message.ai response.content response.tool_calls] ++
          response.tool_calls.map (fun c => Message.tool (.str (tO c)) c.id),
          s.step + 1, s.max_steps⟩).modelCalls + 1,
        (runLoop mA tO ⟨s.messages ++ [Message.ai response.content response.tool_calls] ++
          response.tool_calls.map (fun c => Message.tool (.str (tO c)) c.id),
          s.step + 1, s.max_steps⟩).toolDispatches + response.tool_calls.length⟩ := by
  rw [runLoop]
  rw [hok]
  dsimp only
  rw [dif_neg hgo, if_neg (by rw [hne]; exact fun hc => Bool.noConfusion hc)]

/-- Within one run, the loop performs at most `max_steps - step` model
invocations once at least one invocation is permitted by the measure. -/
lemma runLoop_calls_le {E : Type} (mA : Nat → Nat → Except E ModelTurn)
    (tO : ToolCall → String) :
    ∀ (k : Nat) (s : AgentState), s.max_steps - s.step = k → 1 ≤ k →
      (runLoop mA tO s).modelCalls ≤ k := by
  intro k
  induction k using Nat.strong_induction_on with
  | _ k ih =>
    intro s hk hk1
    cases hE : (invoke_with_retry (mA s.step)).1 with
    | error e =>
        rw [runLoop_error_case mA tO s e hE]
        exact hk1
    | ok response =>
        by_cases hstop : s.max_steps ≤ s.step + 1
        · rw [runLoop_ok_stop mA tO s response hE hstop]
          exact hk1
        · cases hempty : response.tool_calls.isEmpty with
          | true =>
              rw [runLoop_ok_notools mA tO s response hE hstop hempty]
              exact hk1
          | false =>
              rw [runLoop_ok_tools mA tO s response hE hstop hempty]
              have hrec := ih (k - 1) (by omega)
                ⟨s.messages ++ [Message.ai response.content response.tool_calls] ++
                  response.tool_calls.map (fun c => Message.tool (.str (tO c)) c.id),
                  s.step + 1, s.max_steps⟩ (by simp; omega) (by omega)
              dsimp only at hrec ⊢
              omega

/-- Whenever a run terminates normally (reaches `END`), the final state
keeps the ceiling, its last message is the model turn just produced, and
that turn either carries no tool calls or the step counter is at or past
the ceiling. -/
lemma runLoop_done_shape {E : Type} (mA : Nat → Nat → Except E ModelTurn)
    (tO : ToolCall → String) :
    ∀ (k : Nat) (s : AgentState), s.max_steps - s.step = k →
      ∀ fin, (runLoop mA tO s).result = .ok fin →
        fin.max_steps = s.max_steps ∧
        ∃ c tcs, fin.messages.getLast? = some (.ai c tcs) ∧
          (tcs = [] ∨ fin.max_steps ≤ fin.step) := by
  intro k
  induction k using Nat.strong_induction_on with
  | _ k ih =>
    intro s hk fin hfin
    cases hE : (invoke_with_retry (mA s.step)).1 with
    | error e =>
        rw [runLoop_error_case mA tO s e hE] at hfin
        exact absurd hfin (by simp)
    | ok response =>
        by_cases hstop : s.max_steps ≤ s.step + 1
        · rw [runLoop_ok_stop mA tO s response hE hstop] at hfin
          simp only [Except.ok.injEq] at hfin
          subst hfin
          refine ⟨rfl, response.content, response.tool_calls, ?_, Or.inr hstop⟩
          exact List.getLast?_concat _
        · cases hempty : response.tool_calls.isEmpty with
          | true =>
              rw [runLoop_ok_notools mA tO s response hE hstop hempty] at hfin
              simp only [Except.ok.injEq] at hfin
              subst hfin
              refine ⟨rfl, response.content, response.tool_calls, ?_, Or.inl ?_⟩
              · exact List.getLast?_concat _
              · exact List.isEmpty_iff.mp hempty
          | false =>
              rw [runLoop_ok_tools mA tO s response hE hstop hempty] at hfin
              have hrec := ih (s.max_steps - (s.step + 1)) (by omega)
                ⟨s.messages ++ [Message.ai response.content response.tool_calls] ++
                  response.tool_calls.map (fun c => Message.tool (.str (tO c)) c.id),
                  s.step + 1, s.max_steps⟩ rfl fin hfin
              exact hrec

/-- One loop entry whose state is already at or past the ceiling: the
entry node still invokes the model once, then the conditional edge routes
to `END` with no tool dispatch. -/
lemma runLoop_at_ceiling {E : Type} (mA : Nat → Nat → Except E ModelTurn)
    (tO : ToolCall → String) (s : AgentState) (hceil : s.max_steps ≤ s.step) :
    (runLoop mA tO s).modelCalls = 1 ∧ (runLoop mA tO s).toolDispatches = 0 := by
  cases hE : (invoke_with_retry (mA s.step)).1 with
  | error e => rw [runLoop_error_case mA tO s e hE]; exact ⟨rfl, rfl⟩
  | ok response =>
      rw [runLoop_ok_stop mA tO s response hE (by omega)]
      exact ⟨rfl, rfl⟩

/-- C1, amended: for `max_steps = N ≥ 1` and a run started (as `run_agent`
starts it) at step 0, the loop performs at most `N` model invocations, and
every normal termination (`END`) happens exactly when the just-appended
model turn carries no tool calls or the step counter has reached `N`.
However the ceiling is checked by the conditional edge only *after*
`_call_model` has run, so an entry at or past the ceiling still performs
one model invocation (with zero tool dispatches) rather than none; in
particular for `N = 0` the loop still invokes the model once. -/
theorem c1_loop_amended {E : Type} (mA : Nat → Nat → Except E ModelTurn)
    (tO : ToolCall → String) (messages : List Message) (N : Nat) (hN : 1 ≤ N) :
    (runLoop mA tO ⟨messages, 0, N⟩).modelCalls ≤ N ∧
    (∀ fin, (runLoop mA tO ⟨messages, 0, N⟩).result = .ok fin →
      fin.max_steps = N ∧
      ∃ c tcs, fin.messages.getLast? = some (.ai c tcs) ∧ (tcs = [] ∨ N ≤ fin.step)) ∧
    (∀ s : AgentState, s.max_steps ≤ s.step →
      (runLoop mA tO s).modelCalls = 1 ∧ (runLoop mA tO s).toolDispatches = 0) := by
  refine ⟨?_, ?_, ?_⟩
  · exact runLoop_calls_le mA tO N ⟨messages, 0, N⟩ (by simp) hN
  · intro fin hfin
    have h := runLoop_done_shape mA tO N ⟨messages, 0, N⟩ (by simp) fin hfin
    have hmax : fin.max_steps = N := h.1
    obtain ⟨c, tcs, hlast, hor⟩ := h.2
    refine ⟨hmax, c, tcs, hlast, ?_⟩
    rw [← hmax]
    exact hor
  · exact fun s hs => runLoop_at_ceiling mA tO s hs

/-- C1 witness: a concrete run with ceiling 1 against a model that answers
plainly performs at most one model invocation. -/
theorem c1_witness :
    (1 : Nat) ≤ 1 ∧
    (runLoop plainAnswerAttempts emptyToolResult ⟨[], 0, 1⟩).modelCalls ≤ 1 :=
  ⟨by decide, (c1_loop_amended plainAnswerAttempts emptyToolResult [] 1 (by decide)).1⟩

/-- C1, counterexample: with step ceiling `max_steps = 0` the run still
performs one model invocation — the entry point of the compiled graph is
the `agent` node and `_has_tool_calls` checks `step >= max_steps` only
after `_call_model` has executed — contradicting the claim that at most
`N = 0` invocations occur and that a state at the ceiling transitions to
`DONE` without further model invocations. -/
theorem c1_counterexample :
    (runLoop plainAnswerAttempts emptyToolResult ⟨[], 0, 0⟩).modelCalls = 1 ∧
    ¬ (runLoop plainAnswerAttempts emptyToolResult ⟨[], 0, 0⟩).modelCalls ≤ 0 := by
  have h : runLoop plainAnswerAttempts emptyToolResult ⟨[], 0, 0⟩ =
      ⟨.ok ⟨[Message.ai (.str "hello there") []], 1, 0⟩, 1, 0⟩ := by
    have hok : (invoke_with_retry (plainAnswerAttempts 0)).1 =
        .ok (⟨.str "hello there", []⟩ : ModelTurn) := by
      rw [invoke_with_retry_ok0 (plainAnswerAttempts 0) (⟨.str "hello there", []⟩ : ModelTurn) rfl]
    have := runLoop_ok_stop plainAnswerAttempts emptyToolResult ⟨[], 0, 0⟩
      ⟨.str "hello there", []⟩ hok (by decide)
    simpa using this
  rw [h]
  exact ⟨rfl, by decide⟩

/-- C5: the retry wrapper attempts the call immediately (an immediately
successful call sleeps not at all), retries failing calls three more
times after sleeps of 2, 4 and 8 seconds (total backoff 14 ≥ 2+4+8), and
after the fourth consecutive failure re-raises the last failure; a run
whose model-call attempts all fail therefore raises that transport
failure having performed one model invocation round and zero tool
dispatches. -/
theorem c5_retry_schedule {E A : Type} (f : Nat → Except E A) (e : Nat → E)
    (hfail : ∀ i, i < 4 → f i = .error (e i))
    (mA : Nat → Nat → Except E ModelTurn) (me : Nat → E)
    (tO : ToolCall → String) (s : AgentState)
    (hm : ∀ i, i < 4 → mA s.step i = .error (me i)) :
    invoke_with_retry f = (.error (e 3), [2, 4, 8]) ∧
    ([2, 4, 8] : List Nat).sum = 2 + 4 + 8 ∧
    (∀ (g : Nat → Except E A) (v : A), g 0 = .ok v → invoke_with_retry g = (.ok v, [])) ∧
    runLoop mA tO s = ⟨.error (me 3), 1, 0⟩ := by
  refine ⟨invoke_with_retry_allfail f e hfail, by decide, ?_, ?_⟩
  · exact fun g v hg => invoke_with_retry_ok0 g v hg
  · exact runLoop_error_case mA tO s (me 3)
      (by rw [invoke_with_retry_allfail (mA s.step) me hm])

/-- C5 witness: against a concretely always-failing transport, the wrapper
returns the last failure after sleeping 2, 4 and 8 seconds, and a concrete
run dispatches no tools. -/
theorem c5_witness :
    invoke_with_retry (fun _ => (.error "boom" : Except String Unit)) =
      (.error "boom", [2, 4, 8]) ∧
    (runLoop failingAttempts emptyToolResult ⟨[], 0, 5⟩).toolDispatches = 0 := by
  have h := c5_retry_schedule (fun _ => (.error "boom" : Except String Unit))
    (fun _ => "boom") (fun _ _ => rfl) failingAttempts
    (fun _ => "503 transport failure") emptyToolResult ⟨[], 0, 5⟩ (fun _ _ => rfl)
  exact ⟨h.1, by rw [h.2.2.2]⟩

/-! ### Short-term window lemmas -/

lemma maxSuffix_suffix (budget : Nat) (l : List Message) :
    ∃ t, t ++ maxSuffixWithinBudget budget l = l := by
  induction l with
  | nil => exact ⟨[], rfl⟩
  | cons m rest ih =>
      rw [maxSuffixWithinBudget]
      split
      · exact ⟨[], rfl⟩
      · obtain ⟨t, ht⟩ := ih
        exact ⟨m :: t, by rw [List.cons_append, ht]⟩

lemma trim_head_isHuman (l : List Message) :
    ((l.dropWhile (fun m => !m.isHuman)).head?.all Message.isHuman) = true := by
  induction l with
  | nil => rfl
  | cons m rest ih =>
      rw [List.dropWhile_cons]
      cases hm : m.isHuman with
      | false => simpa [hm] using ih
      | true => simp [hm]

lemma pyLastSlice_length_le (n : Nat) (l : List α) : (pyLastSlice n l).length ≤ n := by
  unfold pyLastSlice
  rw [List.length_drop]
  omega

/-- C2, amended: the context is the system prompt, the optional summary
block, then a window that is a suffix of the 50-message candidate window
and is either empty or starts on a user turn; a window that cannot start
on a user turn comes back empty — the fallback to the untrimmed candidate
happens only when the estimator or trimmer raises (impossible for the
embedded total estimator), not when the start-on-user constraint empties
the window. -/
theorem c2_window_amended (messages : List Message) (summary system_prompt : String) :
    build_message_context messages summary system_prompt =
      [Message.system (.str system_prompt)] ++
        (if !summary.isEmpty then [Message.system (.str (summary_block summary))] else []) ++
        trim_messages_last DEFAULT_CONTEXT_MAX_TOKENS (candidate_window messages) ∧
    (∃ t, t ++ trim_messages_last DEFAULT_CONTEXT_MAX_TOKENS (candidate_window messages) =
        candidate_window messages) ∧
    (candidate_window messages).length ≤ DEFAULT_RECENT_MESSAGES_LIMIT ∧
    (trim_messages_last DEFAULT_CONTEXT_MAX_TOKENS (candidate_window messages)).head?.all
        Message.isHuman = true := by
  refine ⟨rfl, ?_, pyLastSlice_length_le _ _, trim_head_isHuman _⟩
  unfold trim_messages_last
  obtain ⟨t1, ht1⟩ := maxSuffix_suffix DEFAULT_CONTEXT_MAX_TOKENS (candidate_window messages)
  refine ⟨t1 ++ (maxSuffixWithinBudget DEFAULT_CONTEXT_MAX_TOKENS
    (candidate_window messages)).takeWhile (fun m => !m.isHuman), ?_⟩
  rw [List.append_assoc, List.takeWhile_append_dropWhile]
  exact ht1

/-- C2, counterexample: on a candidate window holding only a model turn
(within budget), the code returns an *empty* window — the claim's fallback
to the untrimmed candidate does not happen, because the `except` clause
fires only on exceptions and LangChain's trimmer returns an empty list,
not an error, when the start-on-user constraint empties the window. -/
theorem c2_counterexample :
    trim_messages_last DEFAULT_CONTEXT_MAX_TOKENS (candidate_window aiOnlyHistory) = [] ∧
    candidate_window aiOnlyHistory = aiOnlyHistory ∧
    aiOnlyHistory ≠ [] ∧
    build_message_context aiOnlyHistory "" "sys prompt" =
      [Message.system (.str "sys prompt")] := by
  refine ⟨?_, ?_, ?_, ?_⟩ <;> decide

/-! ### Durable memory lemmas -/

lemma pyLastSlice_of_le (n : Nat) (l : List α) (h : l.length ≤ n) :
    pyLastSlice n l = l := by
  unfold pyLastSlice
  rw [show l.length - n = 0 from by omega, List.drop_zero]

lemma save_memory_eq (enc : Message → String) (fs : FS) (project : String)
    (messages : List Message) :
    save_memory enc fs project messages =
      (fs.mkdirParents (memory_path project).dropLast).setFile (memory_path project)
        (String.join ((pyLastSlice DEFAULT_MEMORY_EXPORT_MAX_MESSAGES
          (messages.filter (fun m => !m.isSystem))).map (fun m => enc m ++ "\n"))) := by
  simp only [save_memory]
  by_cases hlen :
      (messages.filter (fun m => !m.isSystem)).length > DEFAULT_MEMORY_EXPORT_MAX_MESSAGES
  · rw [if_pos hlen]
  · rw [if_neg hlen, pyLastSlice_of_le _ _ (by omega)]

lemma lookup_setFile (fs : FS) (p : FsPath) (c : String) :
    (fs.setFile p c).lookup p = some c := by
  show lookupFile ((p, c) :: fs.files) p = some c
  rw [lookupFile, if_pos rfl]

/-- C6: the transcript export writes, into the project's transcript file
(creating the project directory first), exactly one serialized record per
line for the most recent at-most-300 non-system messages: the exported
entry list never holds a system message, never exceeds 300 entries, is a
suffix (the most recent entries) of the non-system history, and the file
content is overwritten in full with exactly these lines. -/
theorem c6_export_transcript (enc : Message → String) (fs : FS) (project : String)
    (messages : List Message) :
    (save_memory enc fs project messages).lookup (memory_path project) =
      some (String.join ((pyLastSlice DEFAULT_MEMORY_EXPORT_MAX_MESSAGES
        (messages.filter (fun m => !m.isSystem))).map (fun m => enc m ++ "\n"))) ∧
    (pyLastSlice DEFAULT_MEMORY_EXPORT_MAX_MESSAGES
        (messages.filter (fun m => !m.isSystem))).length ≤
      DEFAULT_MEMORY_EXPORT_MAX_MESSAGES ∧
    (∀ m ∈ pyLastSlice DEFAULT_MEMORY_EXPORT_MAX_MESSAGES
        (messages.filter (fun m => !m.isSystem)), m.isSystem = false) ∧
    (∃ t, t ++ pyLastSlice DEFAULT_MEMORY_EXPORT_MAX_MESSAGES
        (messages.filter (fun m => !m.isSystem)) = messages.filter (fun m => !m.isSystem)) ∧
    (memory_path project).dropLast ∈ (save_memory enc fs project messages).dirs := by
  refine ⟨?_, pyLastSlice_length_le _ _, ?_, ?_, ?_⟩
  · rw [save_memory_eq]
    exact lookup_setFile _ _ _
  · intro m hm
    have hm2 : m ∈ messages.filter (fun m => !m.isSystem) :=
      (List.drop_sublist _ _).mem hm
    have hsys := (List.mem_filter.mp hm2).2
    simpa using hsys
  · refine ⟨(messages.filter (fun m => !m.isSystem)).take
      ((messages.filter (fun m => !m.isSystem)).length - DEFAULT_MEMORY_EXPORT_MAX_MESSAGES), ?_⟩
    unfold pyLastSlice
    exact List.take_append_drop _ _
  · rw [save_memory_eq]
    exact List.mem_cons_self _ _

/-! ### Project-scoped path handling -/

/-- C9: evaluation at the failing input.  For project `3`, the input path
`../33/secret.txt` resolves to `<projects>/33/secret.txt` — a sibling
project's file, outside project `3`'s directory subtree — yet
`_safe_project_path` accepts it, because its final guard is a
case-insensitive string-prefix test (`str(target).lower().startswith(
str(root).lower())`) without a trailing path separator, and
`/…/projects/33/secret.txt` does start with `/…/projects/3`.  A
traversal that does not collide with the prefix, `../notes.txt`, is
rejected, showing the guard is exactly this string-prefix test. -/
theorem c9_path_guard_bug :
    safe_project_path "3" "../33/secret.txt" =
      .ok (PROJECTS_ROOT ++ ["33", "secret.txt"]) ∧
    (PROJECTS_ROOT ++ ["33", "secret.txt"]).take (PROJECTS_ROOT ++ ["3"]).length ≠
      PROJECTS_ROOT ++ ["3"] ∧
    safe_project_path "3" "../notes.txt" =
      .error "Path escapes project directory '3'" := by
  refine ⟨by decide, by decide, by decide⟩

/-- C10: when the resolved target file already exists and `overwrite` is
false, `write_file` returns the `File already exists` message and leaves
the filesystem — in particular the existing file's content — unchanged. -/
theorem c10_write_file_no_overwrite (fs : FS) (project_id path content : String) (p : FsPath)
    (hp : safe_project_path project_id path = .ok p)
    (hex : (fs.lookup p).isSome = true) :
    write_file fs project_id path content false = (fs, "File already exists: " ++ path) := by
  unfold write_file
  rw [hp]
  dsimp only
  have hcond : (fs.pathExists p && !false) = true := by
    unfold FS.pathExists
    rw [hex, Bool.not_false, Bool.and_true, Bool.true_or]
  rw [if_pos hcond]

/-- C10 witness: a concrete filesystem with an existing `notes.txt` in
project `p1` refuses the non-overwriting write and is left unchanged. -/
theorem c10_witness :
    safe_project_path "p1" "notes.txt" = .ok (PROJECTS_ROOT ++ ["p1", "notes.txt"]) ∧
    (fsWithNotes.lookup (PROJECTS_ROOT ++ ["p1", "notes.txt"])).isSome = true ∧
    write_file fsWithNotes "p1" "notes.txt" "new content" false =
      (fsWithNotes, "File already exists: " ++ "notes.txt") :=
  ⟨by decide, by decide,
    c10_write_file_no_overwrite fsWithNotes "p1" "notes.txt" "new content"
      (PROJECTS_ROOT ++ ["p1", "notes.txt"]) (by decide) (by decide)⟩

end VideoAgent
